import Mathlib

/-!
Verification development for the fp-orchestrator ingestion core: a shallow
embedding in Lean 4 of the request dispatcher (`src/grpc_service/orchestrator_servicer.py`),
the recording buffer (`src/buffer/buffer.py`), the prediction buffer
(`src/buffer/prediction_buffer.py`), the data model (`src/models/*.py`) and the
control-surface endpoints of `main.py`.

Modelling conventions:
- Python dicts/objects become Lean structures; machine wall-clock timestamps are
  abstracted (a timestamp is a `Nat` supplied by the caller, or `Option Unit`
  when only its presence matters); the payload of a sensor record is a
  key/value list since no control flow inspects it beyond `sensor_type`.
- The external inference engine and the blob-storage client are out of scope
  (collaborators); each invocation's outcome is an explicit parameter
  (`InferOutcome`, `UploadOutcome`), and the invocation itself is recorded in
  an event trace so that "exactly one invocation" style properties are statable.
- Fire-and-forget websocket broadcasts are recorded as trace events.
- Exceptions are modelled explicitly: a raise point returns an `Option PyError`
  alongside the mutated-so-far state (Python mutates in place, so state changes
  made before a raise persist), and `try/except` blocks translate to matches on
  that option.
-/

namespace FpOrchestrator

/-- Error values a modelled Python expression can raise. -/
inductive PyError where
  | attributeError
  deriving Repr, DecidableEq

/-- Activity (src/models/activity.py): name, optional description, creation time. -/
structure Activity where
  name : String
  description : Option String := none
  created_at : String := ""
  deriving Repr, DecidableEq

/-- SensorData as built by `create_sensor_data` (src/models/sensor_data.py):
a dict with `sensor_type`, `device_id`, `data`, `batch_id`.  The payload `data`
is a key/value list; no embedded operation reads anything but `sensor_type`. -/
structure SensorRecord where
  sensor_type : String
  device_id : Option String := none
  data : List (String × Rat) := []
  batch_id : Option String := none
  deriving Repr, DecidableEq

/-- create_sensor_data (src/models/sensor_data.py). -/
def create_sensor_data (sensor_type : String) (device_id : Option String := none)
    (data : List (String × Rat) := []) (batch_id : Option String := none) : SensorRecord :=
  { sensor_type, device_id, data, batch_id }

/-- PredictionResult (src/models/prediction.py).  `confidence` is a unit-interval
float in the source, embedded as `Rat`; `timestamp` is abstracted to `Nat`. -/
structure PredictionResult where
  predicted_label : String
  confidence : Rat
  timestamp : Nat := 0
  n_users : Nat := 0
  deriving Repr, DecidableEq

/-- PredictionStatus (src/models/prediction.py) with its source defaults. -/
structure PredictionStatus where
  is_active : Bool := false
  waiting_for_rfid : Bool := true
  collecting_data : Bool := false
  current_prediction : Option PredictionResult := none
  data_collection_progress : Rat := 0
  deriving Repr, DecidableEq

/-- Upload statistics owned by the recording buffer (src/buffer/buffer.py,
`self.upload_stats`).  `pendingUploads` is an `Int` because the source
decrements it. `lastUploadTime` keeps only presence (wall clock abstracted). -/
structure UploadStats where
  totalUploads : Nat := 0
  totalErrors : Nat := 0
  pendingUploads : Int := 0
  lastUploadTime : Option Unit := none
  deriving Repr, DecidableEq

/-- Recording-buffer state (src/buffer/buffer.py `Buffer`): configured `size`
threshold, accumulated `data`, and the upload statistics. -/
structure BufferSt where
  size : Nat
  data : List SensorRecord := []
  upload_stats : UploadStats := {}
  deriving Repr, DecidableEq

namespace Buffer

/-- Buffer.add: append one item (done under the buffer lock in the source). -/
def add (b : BufferSt) (item : SensorRecord) : BufferSt :=
  { b with data := b.data ++ [item] }

/-- Buffer.current_size. -/
def current_size (b : BufferSt) : Nat := b.data.length

/-- Buffer.upload_to_s3_async: under one critical section, snapshot the whole
buffer and clear it; then submit the snapshot to the worker pool, bump
`pendingUploads` and stamp `lastUploadTime`.  The returned option is the
submitted snapshot (`none` when the buffer was empty and nothing was submitted).
The snapshot-and-clear pair is a single step of this model, mirroring the single
critical section of the source. -/
def upload_to_s3_async (b : BufferSt) : BufferSt × Option (List SensorRecord) :=
  if b.data = [] then (b, none)
  else
    let snapshot := b.data
    ({ b with
        data := [],
        upload_stats := { b.upload_stats with
          pendingUploads := b.upload_stats.pendingUploads + 1,
          lastUploadTime := some () } },
     some snapshot)

/-- One local backup file as written by Buffer._handle_upload_failure:
label, user count, the full failed batch, the error text and a timestamp. -/
structure BackupFile where
  label : String
  n_users : Nat
  data : List SensorRecord
  error : String
  timestamp : Nat
  deriving Repr, DecidableEq

/-- Outcome of the external blob-storage write (`self.s3_service.save`),
a collaborator outside the modelled core. -/
inductive UploadOutcome where
  | success
  | failure (err : String)
  deriving Repr, DecidableEq

/-- Result dict returned by Buffer._upload_data_to_s3 to its completion callback. -/
structure UploadResult where
  success : Bool
  upload_id : Nat
  error : Option String := none
  data_count : Nat := 0
  deriving Repr, DecidableEq

/-- Buffer._upload_data_to_s3 (offload worker body): attempt the storage write;
on failure write exactly one local backup file holding the whole snapshot plus
label, user count, error text and timestamp, and report failure to the callback.
The returned list collects the backup files written by this call. -/
def upload_data_to_s3 (data_snapshot : List SensorRecord) (label : String)
    (n_users : Nat) (upload_id : Nat) (now : Nat) (outcome : UploadOutcome) :
    UploadResult × List BackupFile :=
  match outcome with
  | .success =>
      ({ success := true, upload_id, data_count := data_snapshot.length }, [])
  | .failure e =>
      ({ success := false, upload_id, error := some e },
       [{ label, n_users, data := data_snapshot, error := e, timestamp := now }])

/-- Buffer._upload_completed_callback: decrement `pendingUploads`, then bump
`totalUploads` on success or `totalErrors` on failure. -/
def upload_completed_callback (stats : UploadStats) (result : UploadResult) : UploadStats :=
  let stats1 := { stats with pendingUploads := stats.pendingUploads - 1 }
  if result.success then { stats1 with totalUploads := stats1.totalUploads + 1 }
  else { stats1 with totalErrors := stats1.totalErrors + 1 }

/-- The per-record ingest step of OrchestratorServicer._handle_buffer_upload
restricted to the buffer component: add the record, and when the size reaches
the threshold submit one offload (label and user count are attached at the
dispatcher level). -/
def handle_upload (b : BufferSt) (rec : SensorRecord) : BufferSt × Option (List SensorRecord) :=
  let b1 := add b rec
  if b1.size ≤ b1.data.length then upload_to_s3_async b1 else (b1, none)

/-- Sequentially ingest a list of records through `handle_upload`, collecting
every submitted snapshot in submission order. -/
def run (b : BufferSt) : List SensorRecord → BufferSt × List (List SensorRecord)
  | [] => (b, [])
  | r :: rs =>
    let step := handle_upload b r
    let rest := run step.1 rs
    (rest.1, step.2.toList ++ rest.2)

end Buffer

/-- Trace events: websocket broadcasts (fire-and-forget side effects), offload
submissions to the worker pool, and invocations of the external inference
engine.  Handlers append to an event trace instead of performing I/O. -/
inductive Event where
  | sensorStatusBroadcast (sensor : String)
  | statsBroadcast
  | predictionStatusBroadcast
  | orchestratorStatusBroadcast (state : String)
  | activityBroadcast (action : String) (activity_name : String)
  | predictionResultPublished (r : PredictionResult)
  | inferenceInvoked (n_users : Nat) (data : List SensorRecord)
  | offloadSubmitted (snapshot : List SensorRecord) (label : String) (n_users : Nat)
  deriving Repr, DecidableEq

/-- Outcome of one invocation of the external inference collaborator
(`self.inference_engine.predict` in prediction_buffer.py).  `raises` covers any
exception raised by the engine or while parsing its result dict (both are
caught by the `except` of `_predict_synchronous`, which then returns `None`);
`success r` is a non-empty, well-formed result already parsed into
`PredictionResult`. -/
inductive InferOutcome where
  | raises
  | success (r : PredictionResult)
  deriving Repr, DecidableEq

/-- The servicer's `self.sensor_stats` dict (orchestrator_servicer.py, __init__).
The rfid timestamp keeps only presence (wall clock abstracted). -/
structure SensorStats where
  imu_batches_received : Nat := 0
  audio_features_processed : Nat := 0
  rfid_last_signal : Option Unit := none
  deriving Repr, DecidableEq

/-- Declared field names of the pydantic model `SystemStatus`
(src/models/system_status.py).  Note `prediction_status` is NOT among them:
pydantic raises `AttributeError` when an undeclared attribute is read. -/
def systemStatusFields : List String :=
  ["orchestrator_ready", "current_activity", "sensors_connected",
   "total_batches_processed", "s3_uploads_successful", "error_count",
   "session_start_time"]

/-- Attribute lookup on a pydantic model with declared field list `fields`:
reading attribute `name` succeeds exactly when the field is declared. -/
def pydantic_hasattr (fields : List String) (name : String) : Bool :=
  fields.contains name

/-- The system-status attribute set the dispatcher (orchestrator_servicer.py)
and the control surface (main.py) dereference on `self.system_status`: the
declared `SystemStatus` fields they touch, plus the `prediction_status`
attribute the code assumes.  `models/system_status.py` does not declare
`prediction_status` (see `systemStatusFields`); this structure gives that
attribute a home so the routing and prediction-cycle logic written against it
can be stated.  The `Checked` handler variants below additionally model the
pydantic attribute check and are faithful to what actually executes.
Declared fields never touched by the embedded code (`sensors_connected`,
`s3_uploads_successful`, `error_count`) are omitted; `session_start_time`
keeps only presence. -/
structure SystemStatusUsed where
  orchestrator_ready : Bool := false
  current_activity : Option Activity := none
  total_batches_processed : Nat := 0
  session_start_time : Option Unit := some ()
  prediction_status : PredictionStatus := {}
  deriving Repr, DecidableEq

/-- Prediction-buffer state (prediction_buffer.py `PredictionBuffer`):
collected data, collecting flag, user count recorded at arming. -/
structure PredictionBufferSt where
  data : List SensorRecord := []
  is_collecting : Bool := false
  n_users : Nat := 0
  deriving Repr, DecidableEq

/-- Whole-servicer state: `self.system_status`, `self.sensor_stats`,
`self.buffer` (threshold 10000 per __init__), `self.prediction_buffer`,
`self.current_users`, plus the event trace.  The prediction buffer's
`orchestrator_servicer` back reference is an explicit `wired` flag on the
faithful prediction-cycle operations (`add_real`,
`run_prediction_synchronously_real`); per the C10 model the wiring line
(orchestrator_servicer.py line 49) is unreachable, so every constructible
buffer is unwired. -/
structure SState where
  system_status : SystemStatusUsed := {}
  sensor_stats : SensorStats := {}
  buffer : BufferSt := { size := 10000 }
  prediction_buffer : PredictionBufferSt := {}
  current_users : Nat := 0
  events : List Event := []
  deriving Repr, DecidableEq

/-- Response to one sensor RPC: the echoed id (device_id or session_id)
and the business status string. -/
structure RpcResponse where
  id : String
  status : String
  deriving Repr, DecidableEq

namespace PredictionBuffer

/-- PredictionBuffer.start_data_collection: clear residual data, enter
collecting, record the user count. -/
def start_data_collection (st : SState) (n_users : Nat) : SState :=
  { st with prediction_buffer := { data := [], is_collecting := true, n_users } }

/-- PredictionBuffer._predict_synchronous: `None` on an empty buffer without
invoking the engine; otherwise invoke the inference engine once with
`{n_users, data}` (recorded as an `inferenceInvoked` event) and return the
parsed result, or `None` when the engine or the result parsing raises (that
exception is caught here and does not escape). -/
def predict_synchronous (st : SState) (o : InferOutcome) :
    Option PredictionResult × SState :=
  if st.prediction_buffer.data = [] then (none, st)
  else
    let st1 := { st with events := st.events ++
      [.inferenceInvoked st.prediction_buffer.n_users st.prediction_buffer.data] }
    match o with
    | .raises => (none, st1)
    | .success r => (some r, st1)

/-- Try-block of PredictionBuffer._run_prediction_synchronously (lines 61-82)
as it would execute if the servicer were wired AND
`system_status.prediction_status` resolved.  In the source the line-65
dereference raises `AttributeError` (the field is not declared - see
`systemStatusFields`), so this is the counterfactual attribute-resolving
continuation, reachable only behind the attribute guard of the faithful
`run_prediction_synchronously_real`. -/
def run_prediction_try (st : SState) (o : InferOutcome) : SState :=
  let st1 := { st with
    system_status := { st.system_status with
      orchestrator_ready := false,
      prediction_status := { st.system_status.prediction_status with
        collecting_data := false } } }
  let st2 := { st1 with events := st1.events ++
    [.predictionStatusBroadcast, .orchestratorStatusBroadcast "predicting"] }
  let pr := predict_synchronous st2 o
  match pr.1 with
  | some r =>
    { pr.2 with
      events := pr.2.events ++ [.predictionResultPublished r],
      system_status := { pr.2.system_status with
        prediction_status := { pr.2.system_status.prediction_status with
          current_prediction := some r } } }
  | none => pr.2

/-- First half of the finally-block of _run_prediction_synchronously (lines
89-99) in the attribute-resolving continuation: clear the buffered data,
leave collecting, and set the orchestrator back to ready.  In the real wired
execution the line-94 dereference raises before the line-98 ready reset; see
`run_prediction_synchronously_real`. -/
def teardown_mid (st : SState) : SState :=
  { st with
    prediction_buffer := { st.prediction_buffer with data := [], is_collecting := false },
    system_status := { st.system_status with orchestrator_ready := true } }

/-- Second half of the finally-block (lines 101-132, the re-arm decision) in
the attribute-resolving continuation: if prediction mode is still active and
at least one user is present, restart data collection for the next cycle;
otherwise park waiting for rfid with zero progress.  No real execution
reaches these lines (wired, the line-94 raise comes first; unwired, the whole
guarded block is skipped). -/
def rearm (st : SState) : SState :=
  if st.system_status.prediction_status.is_active = true ∧ 0 < st.current_users then
    let st1 := start_data_collection st st.current_users
    { st1 with
      system_status := { st1.system_status with
        prediction_status := { st1.system_status.prediction_status with
          collecting_data := true, data_collection_progress := 0 } },
      events := st1.events ++
        [.predictionStatusBroadcast, .orchestratorStatusBroadcast "collecting"] }
  else
    { st with
      system_status := { st.system_status with
        prediction_status := { st.system_status.prediction_status with
          collecting_data := false, waiting_for_rfid := true,
          data_collection_progress := 0 } },
      events := st.events ++
        [.predictionStatusBroadcast, .orchestratorStatusBroadcast "waiting"] }

/-- PredictionBuffer._run_prediction_synchronously in the attribute-resolving
continuation (used only behind the attribute guard of the faithful
`run_prediction_synchronously_real`, whose doc comment gives the actual
control flow). -/
def run_prediction_synchronously (st : SState) (o : InferOutcome) : SState :=
  rearm (teardown_mid (run_prediction_try st o))

/-- PredictionBuffer.add in the attribute-resolving continuation (the faithful
variant is `add_real`): no-op returning `false` when not collecting;
otherwise append the item, and when it is audio run the attribute-resolving
prediction step and return `false`; for any other sensor type return `true`. -/
def add (st : SState) (item : SensorRecord) (o : InferOutcome) : Bool × SState :=
  if st.prediction_buffer.is_collecting = false then (false, st)
  else
    let st1 := { st with prediction_buffer :=
      { st.prediction_buffer with data := st.prediction_buffer.data ++ [item] } }
    if item.sensor_type = "audio" then (false, run_prediction_synchronously st1 o)
    else (true, st1)

end PredictionBuffer

namespace OrchestratorServicer

/-- OrchestratorServicer.start_prediction_data_collection (lines 228-245) as
it would execute if `prediction_status` resolved: set prediction status to
active/collecting with zero progress, arm the prediction buffer, broadcast.
In the source the line-233 dereference raises `AttributeError`, which the
function's own except clause swallows, so the real function changes no state;
this counterfactual continuation is referenced only from `rfid_tail`, itself
dead behind the attribute guard of `ReceiveRFIDDataChecked`. -/
def start_prediction_data_collection (st : SState) : SState :=
  let st1 := { st with system_status := { st.system_status with
    prediction_status := { st.system_status.prediction_status with
      is_active := true, collecting_data := true, waiting_for_rfid := false,
      data_collection_progress := 0 } } }
  let st2 := PredictionBuffer.start_data_collection st1 st1.current_users
  { st2 with events := st2.events ++ [.predictionStatusBroadcast] }

/-- OrchestratorServicer._handle_buffer_upload: add the record to the recording
buffer; when the size reaches the threshold, submit an offload labelled with
`current_activity.name` and the current user count.  Evaluating that label when
`current_activity` is `None` raises `AttributeError` (the argument is evaluated
before the snapshot is taken, so the buffer keeps its data in that case). -/
def handle_buffer_upload (st : SState) (rec : SensorRecord) : SState × Option PyError :=
  let b1 := Buffer.add st.buffer rec
  if b1.size ≤ b1.data.length then
    match st.system_status.current_activity with
    | none => ({ st with buffer := b1 }, some .attributeError)
    | some act =>
      let up := Buffer.upload_to_s3_async b1
      match up.2 with
      | some snapshot =>
        ({ st with
            buffer := up.1,
            events := st.events ++
              [.offloadSubmitted snapshot act.name st.current_users] },
         none)
      | none => ({ st with buffer := up.1 }, none)
  else ({ st with buffer := b1 }, none)

/-- The routing tail shared by ReceiveIMUData (lines 99-109) and
ReceiveAudioData (lines 183-193) as it would execute if
`system_status.prediction_status` resolved: route to the recording buffer
when prediction mode is inactive (an `AttributeError` from the unset activity
label at a threshold crossing is caught by the handler's except clause), to
the prediction buffer when active and collecting, then answer success.  In
the source the first dereference raises, so routing never runs; this is the
counterfactual continuation behind the attribute guard of the `Checked`
handlers. -/
def route_record (id : String) (st : SState) (rec : SensorRecord)
    (o : InferOutcome) : RpcResponse × SState :=
  let step :=
    if st.system_status.prediction_status.is_active = false
    then handle_buffer_upload st rec
    else (st, none)
  match step.2 with
  | some _ => (⟨id, "error"⟩, step.1)
  | none =>
    let st2 := step.1
    let st3 :=
      if st2.system_status.prediction_status.is_active = true ∧
         st2.system_status.prediction_status.collecting_data = true
      then (PredictionBuffer.add st2 rec o).2
      else st2
    (⟨id, "success"⟩, st3)

/-- Stats-and-broadcast prefix of ReceiveIMUData (lines 93-97): bump the imu
batch counter and the total counter, then schedule the imu sensor-status and
stats broadcasts. -/
def imu_ingest (st : SState) : SState :=
  { st with
    sensor_stats := { st.sensor_stats with
      imu_batches_received := st.sensor_stats.imu_batches_received + 1 },
    system_status := { st.system_status with
      total_batches_processed := st.system_status.total_batches_processed + 1 },
    events := st.events ++ [.sensorStatusBroadcast "imu", .statsBroadcast] }

/-- Stats-and-broadcast prefix of ReceiveAudioData (lines 175-180): bump the
audio feature counter and the total counter, then schedule the audio
sensor-status broadcast. -/
def audio_ingest (st : SState) : SState :=
  { st with
    sensor_stats := { st.sensor_stats with
      audio_features_processed := st.sensor_stats.audio_features_processed + 1 },
    system_status := { st.system_status with
      total_batches_processed := st.system_status.total_batches_processed + 1 },
    events := st.events ++ [.sensorStatusBroadcast "audio"] }

/-- ReceiveIMUData in the attribute-resolving continuation (the faithful
variant is `ReceiveIMUDataChecked`; in the source every admitted call raises
at the line-100 dereference and answers error, so the routing here never
runs): admission gate, then stats, then routing.  `rec` is the record
produced by `_proto_to_sensor_imu_data`. -/
def ReceiveIMUData (st : SState) (device_id : String) (rec : SensorRecord)
    (o : InferOutcome) : RpcResponse × SState :=
  if st.system_status.orchestrator_ready = false ∨ st.current_users = 0 then
    (⟨device_id, "rejected_not_ready"⟩, st)
  else
    route_record device_id (imu_ingest st) rec o

/-- ReceiveAudioData in the attribute-resolving continuation (the faithful
variant is `ReceiveAudioDataChecked`; in the source every admitted call
raises at the line-184 dereference); `rec` is the record produced by
`_proto_to_sensor_audio_data` (its `sensor_type` is `"audio"`). -/
def ReceiveAudioData (st : SState) (session_id : String) (rec : SensorRecord)
    (o : InferOutcome) : RpcResponse × SState :=
  if st.system_status.orchestrator_ready = false ∨ st.current_users = 0 then
    (⟨session_id, "rejected_not_ready"⟩, st)
  else
    route_record session_id (audio_ingest st) rec o

/-- Counter prefix of ReceiveRFIDData (lines 126-131): stamp the rfid
last-signal, bump the total counter, and replace `current_users` with the
request's tag count (`request.current_tags or 0`; the payload tag count is a
`Nat` here, so the `or 0` falsy-guard is the identity). -/
def rfid_ingest (st : SState) (current_tags : Nat) : SState :=
  { st with
    sensor_stats := { st.sensor_stats with rfid_last_signal := some () },
    system_status := { st.system_status with
      total_batches_processed := st.system_status.total_batches_processed + 1 },
    current_users := current_tags }

/-- Presence-edge branch of ReceiveRFIDData (lines 134-148) plus the final
rfid broadcast, as it would execute if `prediction_status` resolved: users
present while waiting starts data collection; users gone (previously present)
stops the prediction buffer, clears collecting, sets waiting, broadcasts.  In
the source the line-134 guard itself raises `AttributeError`, so this logic
never executes; it is the counterfactual continuation behind the attribute
guard of `ReceiveRFIDDataChecked`.  `previous_users` is the user count read
before `rfid_ingest` replaced it. -/
def rfid_tail (st : SState) (previous_users : Nat) : SState :=
  let st4 :=
    if st.system_status.prediction_status.is_active = true then
      if 0 < st.current_users ∧
         st.system_status.prediction_status.waiting_for_rfid = true then
        start_prediction_data_collection st
      else if st.current_users = 0 ∧ 0 < previous_users then
        { st with
          prediction_buffer := { st.prediction_buffer with is_collecting := false },
          system_status := { st.system_status with
            prediction_status := { st.system_status.prediction_status with
              collecting_data := false, waiting_for_rfid := true } },
          events := st.events ++ [.predictionStatusBroadcast] }
      else st
    else st
  { st4 with events := st4.events ++ [.sensorStatusBroadcast "rfid"] }

/-- ReceiveIMUData as it actually executes against the pydantic `SystemStatus`
of models/system_status.py: after the admission gate and the stats mutations,
line 100 reads `system_status.prediction_status`; the attribute is not among
`systemStatusFields`, so pydantic raises `AttributeError`, the handler's except
clause catches it and answers `status="error"` - with the counter mutations
already applied. -/
def ReceiveIMUDataChecked (st : SState) (device_id : String) (rec : SensorRecord)
    (o : InferOutcome) : RpcResponse × SState :=
  if st.system_status.orchestrator_ready = false ∨ st.current_users = 0 then
    (⟨device_id, "rejected_not_ready"⟩, st)
  else
    let st1 := imu_ingest st
    if pydantic_hasattr systemStatusFields "prediction_status" = true then
      route_record device_id st1 rec o
    else (⟨device_id, "error"⟩, st1)

/-- ReceiveAudioData as it actually executes (see `ReceiveIMUDataChecked`):
line 184 reads the undeclared `prediction_status` attribute. -/
def ReceiveAudioDataChecked (st : SState) (session_id : String) (rec : SensorRecord)
    (o : InferOutcome) : RpcResponse × SState :=
  if st.system_status.orchestrator_ready = false ∨ st.current_users = 0 then
    (⟨session_id, "rejected_not_ready"⟩, st)
  else
    let st1 := audio_ingest st
    if pydantic_hasattr systemStatusFields "prediction_status" = true then
      route_record session_id st1 rec o
    else (⟨session_id, "error"⟩, st1)

/-- ReceiveRFIDData as it actually executes: after the counter mutations and
the user-count update, line 134 reads the undeclared `prediction_status`
attribute, so every call answers `status="error"` with those mutations kept
(the rfid broadcast after the branch is skipped as well). -/
def ReceiveRFIDDataChecked (st : SState) (device_id : String) (current_tags : Nat) :
    RpcResponse × SState :=
  let previous_users := st.current_users
  let st1 := rfid_ingest st current_tags
  if pydantic_hasattr systemStatusFields "prediction_status" = true then
    (⟨device_id, "success"⟩, rfid_tail st1 previous_users)
  else (⟨device_id, "error"⟩, st1)

end OrchestratorServicer

/-- The state OrchestratorServicer.__init__ would build if it completed: all
model defaults, recording-buffer threshold 10000, zero users, empty trace.
(In the real program the constructor does not even complete - see the
construction model below.) -/
def initialState : SState := {}

namespace PyInit

/-- Parameter names of PredictionBuffer.__init__ (prediction_buffer.py, besides
`self`): only `wsocket_manager`, and no `**kwargs`. -/
def predictionBufferInitParams : List String := ["wsocket_manager"]

/-- Parameter names of Buffer.__init__ (buffer.py, besides `self`). -/
def bufferInitParams : List String := ["size", "wsocket_manager"]

/-- Python keyword-argument binding for a call written with keyword arguments
only, against a parameter list with no defaults and no `**kwargs`: every
keyword must name a parameter (else `TypeError: unexpected keyword argument`)
and every parameter must be bound (else `TypeError: missing required
argument`). -/
def bind_kwargs (params : List String) (kwargs : List String) : Except String Unit :=
  if kwargs.all (fun k => params.contains k) then
    if params.all (fun p => kwargs.contains p) then Except.ok ()
    else Except.error "TypeError: missing required argument"
  else Except.error "TypeError: unexpected keyword argument"

/-- OrchestratorServicer.__init__ for an arbitrary WebSocketManager argument:
line 47 constructs `Buffer(size=10000, wsocket_manager=...)` (binds fine), then
line 48 constructs `PredictionBuffer(size=5000, wsocket_manager=...)`; the
binding of that call decides whether construction completes with the initial
servicer state or raises `TypeError`. -/
def orchestratorServicerInit {W : Type} (_wsocket_manager : W) : Except String SState := do
  let _ ← bind_kwargs bufferInitParams ["size", "wsocket_manager"]
  let _ ← bind_kwargs predictionBufferInitParams ["size", "wsocket_manager"]
  pure initialState

end PyInit

/-- PredictionBuffer._run_prediction_synchronously as it actually executes.
`wired` says whether `set_orchestrator_servicer` was called on the buffer
(orchestrator_servicer.py line 49 would do so, but that line is unreachable
because construction fails - see the C10 model - so every constructible
buffer is unwired).  Wired: line 64 marks the orchestrator not ready, then
line 65 dereferences the undeclared `system_status.prediction_status` and
raises `AttributeError` (caught by the except clause at line 84), so the
inference at line 72 is never reached; the finally block clears the data and
stops collecting (lines 89-90), then line 94 dereferences `prediction_status`
again inside an f-string and this second `AttributeError` escapes the finally
block - line 98 never runs, `orchestrator_ready` stays false, and no re-arm
or park happens.  (Behind the attribute guard the wired branch delegates to
the attribute-resolving `run_prediction_synchronously`, which is what would
execute if the field existed; the guard is false, so that branch is dead.)
Unwired: the guarded blocks are skipped; the inference runs (its exceptions
are caught inside `_predict_synchronous`), a non-empty result is broadcast,
and the finally block just clears the buffer and stops collecting.  The
returned option is the exception escaping the call; state changes made before
a raise persist, since Python mutates in place. -/
def PredictionBuffer.run_prediction_synchronously_real (st : SState)
    (o : InferOutcome) (wired : Bool) : SState × Option PyError :=
  if wired then
    if pydantic_hasattr systemStatusFields "prediction_status" = true then
      (PredictionBuffer.run_prediction_synchronously st o, none)
    else
      ({ st with
          system_status := { st.system_status with orchestrator_ready := false },
          prediction_buffer := { st.prediction_buffer with
            data := [], is_collecting := false } },
       some PyError.attributeError)
  else
    let pr := PredictionBuffer.predict_synchronous st o
    let st1 : SState := match pr.1 with
      | some r => { pr.2 with events := pr.2.events ++ [Event.predictionResultPublished r] }
      | none => pr.2
    ({ st1 with prediction_buffer := { st1.prediction_buffer with
        data := [], is_collecting := false } },
     none)

/-- PredictionBuffer.add as it actually executes (see
`run_prediction_synchronously_real` for the wired/unwired split).  The
result is an `Except` because, wired, the `AttributeError` escaping the
prediction step propagates out of add to its caller. -/
def PredictionBuffer.add_real (st : SState) (item : SensorRecord)
    (o : InferOutcome) (wired : Bool) : Except PyError Bool × SState :=
  if st.prediction_buffer.is_collecting = false then (.ok false, st)
  else
    let st1 := { st with prediction_buffer :=
      { st.prediction_buffer with data := st.prediction_buffer.data ++ [item] } }
    if item.sensor_type = "audio" then
      let r := PredictionBuffer.run_prediction_synchronously_real st1 o wired
      match r.2 with
      | some e => (.error e, r.1)
      | none => (.ok false, r.1)
    else (.ok true, st1)

/-- Feed a list of records to the faithful add in order (threading the state;
the per-record results are examined separately). -/
def PredictionBuffer.addAll_real (st : SState) (rs : List SensorRecord)
    (o : InferOutcome) (wired : Bool) : SState :=
  rs.foldl (fun s r => (PredictionBuffer.add_real s r o wired).2) st

/-- The inference invocations recorded in a trace, each with the
`{n_users, data}` argument the engine received. -/
def inferenceCalls (es : List Event) : List (Nat × List SensorRecord) :=
  es.filterMap (fun e => match e with
    | .inferenceInvoked n d => some (n, d)
    | _ => none)

/-- The prediction results published in a trace. -/
def publishedResults (es : List Event) : List PredictionResult :=
  es.filterMap (fun e => match e with
    | .predictionResultPublished r => some r
    | _ => none)

/-! ## Concrete fixtures (used by witnesses and counterexamples) -/

/-- A concrete imu record. -/
def imuRecord : SensorRecord := create_sensor_data "imu"

/-- A concrete audio record (the trigger sample kind). -/
def audioRecord : SensorRecord := create_sensor_data "audio"

/-- A concrete parsed inference result. -/
def okResult : PredictionResult := { predicted_label := "walking", confidence := 9/10 }

/-- A concrete servicer state in a prediction cycle with users present
(prediction active, buffer collecting with one collected record). -/
def cycleStateA : SState :=
  { system_status := {
      orchestrator_ready := true,
      prediction_status := {
        is_active := true,
        waiting_for_rfid := false,
        collecting_data := true } },
    prediction_buffer := { data := [imuRecord], is_collecting := true, n_users := 2 },
    current_users := 2 }

/-- A concrete servicer state at the start of a collection window (collecting,
empty prediction buffer, users present). -/
def cycleStateC : SState :=
  { system_status := {
      orchestrator_ready := true,
      prediction_status := {
        is_active := true,
        waiting_for_rfid := false,
        collecting_data := true } },
    prediction_buffer := { data := [], is_collecting := true, n_users := 2 },
    current_users := 2 }

/-- A concrete admitted state with no recording session and prediction mode
inactive (the scenario of the silent-drop sentence of the spec). -/
def noSessionState : SState :=
  { system_status := { orchestrator_ready := true }, current_users := 1 }

/-! ## Helper lemmas -/

/-- Sequential ingestion invariant of the recording buffer: starting strictly
below the threshold, the number of submitted snapshots is the number of
threshold crossings, the remaining size is the remainder, every snapshot is
exactly one threshold's worth of records, the concatenation of the snapshots
followed by the remaining data is the full insertion sequence, and
`pendingUploads` grows by one per submission. -/
theorem Buffer.run_spec (rs : List SensorRecord) : ∀ (b : BufferSt),
    0 < b.size → b.data.length < b.size →
    (Buffer.run b rs).1.size = b.size ∧
    ((Buffer.run b rs).2).length = (b.data.length + rs.length) / b.size ∧
    (Buffer.run b rs).1.data.length = (b.data.length + rs.length) % b.size ∧
    ((Buffer.run b rs).2).flatten ++ (Buffer.run b rs).1.data = b.data ++ rs ∧
    (∀ s ∈ (Buffer.run b rs).2, s.length = b.size) ∧
    (Buffer.run b rs).1.upload_stats.pendingUploads
      = b.upload_stats.pendingUploads + ((Buffer.run b rs).2).length := by
  induction rs with
  | nil =>
    intro b hpos hlen
    simp [Buffer.run, Nat.div_eq_of_lt hlen, Nat.mod_eq_of_lt hlen]
  | cons r rs ih =>
    intro b hpos hlen
    by_cases hcross : b.size ≤ b.data.length + 1
    · have hsz : b.data.length + 1 = b.size := le_antisymm hlen hcross
      have hstep : Buffer.handle_upload b r =
          (⟨b.size, [], ⟨b.upload_stats.totalUploads, b.upload_stats.totalErrors,
             b.upload_stats.pendingUploads + 1, some ()⟩⟩,
           some (b.data ++ [r])) := by
        simp [Buffer.handle_upload, Buffer.add, Buffer.upload_to_s3_async, hcross]
      have hrun : Buffer.run b (r :: rs) =
          ((Buffer.run ⟨b.size, [], ⟨b.upload_stats.totalUploads,
              b.upload_stats.totalErrors, b.upload_stats.pendingUploads + 1,
              some ()⟩⟩ rs).1,
           (b.data ++ [r]) :: (Buffer.run ⟨b.size, [], ⟨b.upload_stats.totalUploads,
              b.upload_stats.totalErrors, b.upload_stats.pendingUploads + 1,
              some ()⟩⟩ rs).2) := by
        conv_lhs => rw [Buffer.run]
        rw [hstep]
        rfl
      rw [hrun]
      have ih2 := ih ⟨b.size, [], ⟨b.upload_stats.totalUploads,
        b.upload_stats.totalErrors, b.upload_stats.pendingUploads + 1, some ()⟩⟩
        hpos (by simpa using hpos)
      obtain ⟨h1, h2, h3, h4, h5, h6⟩ := ih2
      dsimp only at h1 h2 h3 h4 h5 h6
      have harith : b.data.length + (rs.length + 1) = rs.length + b.size := by
        omega
      refine ⟨h1, ?_, ?_, ?_, ?_, ?_⟩
      · simp only [List.length_cons, harith]
        rw [Nat.add_div_right _ hpos]
        exact congrArg (· + 1) (by simpa using h2)
      · simp only [List.length_cons, harith, Nat.add_mod_right]
        simpa using h3
      · simp only [List.flatten_cons, List.append_assoc]
        simp only [List.nil_append] at h4
        simp [h4]
      · intro s hs
        rcases List.mem_cons.mp hs with h | h
        · rw [h]; simpa using hsz
        · exact h5 s h
      · simp only [List.length_cons]
        push_cast
        omega
    · have hlt : b.data.length + 1 < b.size := lt_of_not_le hcross
      have hstep : Buffer.handle_upload b r =
          (⟨b.size, b.data ++ [r], b.upload_stats⟩, none) := by
        simp [Buffer.handle_upload, Buffer.add, hcross]
      have hrun : Buffer.run b (r :: rs) =
          Buffer.run ⟨b.size, b.data ++ [r], b.upload_stats⟩ rs := by
        conv_lhs => rw [Buffer.run]
        rw [hstep]
        simp
      rw [hrun]
      have ih2 := ih ⟨b.size, b.data ++ [r], b.upload_stats⟩ hpos (by simpa using hlt)
      obtain ⟨h1, h2, h3, h4, h5, h6⟩ := ih2
      dsimp only at h1 h2 h3 h4 h5 h6
      have harith : b.data.length + (rs.length + 1) = (b.data.length + 1) + rs.length := by
        omega
      refine ⟨h1, ?_, ?_, ?_, h5, h6⟩
      · simp only [List.length_cons, harith]; simpa using h2
      · simp only [List.length_cons, harith]; simpa using h3
      · simpa using h4

/-- Feeding only non-audio records while collecting just appends them to the
prediction buffer and changes nothing else, for either wiring (the prediction
step is reached only on an audio record). -/
theorem PredictionBuffer.addAll_real_nonaudio (rs : List SensorRecord) :
    ∀ (st : SState) (o : InferOutcome) (wired : Bool),
    st.prediction_buffer.is_collecting = true →
    (∀ r ∈ rs, r.sensor_type ≠ "audio") →
    PredictionBuffer.addAll_real st rs o wired =
      { st with prediction_buffer :=
        { st.prediction_buffer with data := st.prediction_buffer.data ++ rs } } := by
  induction rs with
  | nil =>
    intro st o wired hc hr
    simp [PredictionBuffer.addAll_real]
  | cons r rs ih =>
    intro st o wired hc hr
    have hna : r.sensor_type ≠ "audio" := hr r (by simp)
    have hadd : PredictionBuffer.add_real st r o wired =
        (.ok true, { st with prediction_buffer :=
          { st.prediction_buffer with data := st.prediction_buffer.data ++ [r] } }) := by
      simp [PredictionBuffer.add_real, hc, hna]
    simp only [PredictionBuffer.addAll_real, List.foldl_cons]
    rw [hadd]
    have hmem : ∀ x ∈ rs, x.sensor_type ≠ "audio" :=
      fun x hx => hr x (List.mem_cons_of_mem _ hx)
    have hrec := ih { st with prediction_buffer :=
      { st.prediction_buffer with data := st.prediction_buffer.data ++ [r] } } o wired hc hmem
    simp only [PredictionBuffer.addAll_real] at hrec
    rw [hrec]
    simp

/-- The wired prediction step: the undeclared `prediction_status` dereference
raises; the escaping state has readiness false, the buffer cleared and
collection stopped, with everything else - events and all status fields -
untouched. -/
theorem PredictionBuffer.run_real_wired (st : SState) (o : InferOutcome) :
    PredictionBuffer.run_prediction_synchronously_real st o true
      = ({ st with
            system_status := { st.system_status with orchestrator_ready := false },
            prediction_buffer := { st.prediction_buffer with
              data := [], is_collecting := false } },
         some PyError.attributeError) := rfl

/-- The unwired prediction step never raises. -/
theorem PredictionBuffer.run_real_unwired_none (st : SState) (o : InferOutcome) :
    (PredictionBuffer.run_prediction_synchronously_real st o false).2 = none := by
  unfold PredictionBuffer.run_prediction_synchronously_real
    PredictionBuffer.predict_synchronous
  by_cases hd : st.prediction_buffer.data = [] <;> cases o <;> simp [hd]

/-- The unwired prediction step leaves the system status untouched, clears the
buffer and stops collecting. -/
theorem PredictionBuffer.run_real_unwired_state (st : SState) (o : InferOutcome) :
    (PredictionBuffer.run_prediction_synchronously_real st o false).1.system_status
      = st.system_status ∧
    (PredictionBuffer.run_prediction_synchronously_real st o false).1.prediction_buffer.data = [] ∧
    (PredictionBuffer.run_prediction_synchronously_real st o false).1.prediction_buffer.is_collecting = false := by
  unfold PredictionBuffer.run_prediction_synchronously_real
    PredictionBuffer.predict_synchronous
  by_cases hd : st.prediction_buffer.data = [] <;> cases o <;> simp [hd]

/-- The non-empty unwired prediction step records exactly one inference
invocation, carrying the recorded user count and the full collected data. -/
theorem PredictionBuffer.run_real_unwired_calls (st : SState) (o : InferOutcome)
    (hne : st.prediction_buffer.data ≠ []) :
    inferenceCalls (PredictionBuffer.run_prediction_synchronously_real st o false).1.events
      = inferenceCalls st.events
        ++ [(st.prediction_buffer.n_users, st.prediction_buffer.data)] := by
  unfold PredictionBuffer.run_prediction_synchronously_real
    PredictionBuffer.predict_synchronous
  cases o <;> simp [hne, inferenceCalls, List.filterMap_append]

/-- The unwired prediction step with a raising inference publishes nothing. -/
theorem PredictionBuffer.run_real_unwired_published_raises (st : SState) :
    publishedResults (PredictionBuffer.run_prediction_synchronously_real st .raises false).1.events
      = publishedResults st.events := by
  unfold PredictionBuffer.run_prediction_synchronously_real
    PredictionBuffer.predict_synchronous
  by_cases hd : st.prediction_buffer.data = [] <;>
    simp [hd, publishedResults, List.filterMap_append]

/-- Adding an audio record to an unwired collecting buffer appends it and runs
the unwired prediction step, returning the normal false. -/
theorem PredictionBuffer.add_real_audio_unwired (st : SState) (a : SensorRecord)
    (o : InferOutcome)
    (hcol : st.prediction_buffer.is_collecting = true) (ha : a.sensor_type = "audio") :
    PredictionBuffer.add_real st a o false
      = (.ok false,
         (PredictionBuffer.run_prediction_synchronously_real
           { st with prediction_buffer := { st.prediction_buffer with
               data := st.prediction_buffer.data ++ [a] } } o false).1) := by
  unfold PredictionBuffer.add_real
  rw [if_neg (by simp [hcol])]
  rw [if_pos ha]
  dsimp only
  rw [PredictionBuffer.run_real_unwired_none]

/-- Adding an audio record to a wired collecting buffer raises: the escaping
state has readiness false, the buffer cleared (the freshly appended record
included) and collection stopped; nothing else changes - in particular no
inference invocation and no broadcast is traced. -/
theorem PredictionBuffer.add_real_audio_wired (st : SState) (a : SensorRecord)
    (o : InferOutcome)
    (hcol : st.prediction_buffer.is_collecting = true) (ha : a.sensor_type = "audio") :
    PredictionBuffer.add_real st a o true
      = (.error PyError.attributeError,
         { st with
            system_status := { st.system_status with orchestrator_ready := false },
            prediction_buffer := { st.prediction_buffer with
              data := [], is_collecting := false } }) := by
  simp [PredictionBuffer.add_real, hcol, ha, PredictionBuffer.run_real_wired]

/-! ## Claim theorems -/

/-- C1: for every ReceiveIMUData or ReceiveAudioData call made while
`orchestrator_ready` is false or `current_users` is zero, the handler answers
`rejected_not_ready` and the whole servicer state is returned unchanged - so
no per-sensor stat, no `total_batches_processed`, and neither buffer advances.
Stated for the faithful (`Checked`) handlers and for the attribute-resolving
ones; the admission gate precedes every mutation in both. -/
theorem admission_gate_rejects_not_ready (st : SState) (device_id session_id : String)
    (rec arec : SensorRecord) (o oa : InferOutcome)
    (h : st.system_status.orchestrator_ready = false ∨ st.current_users = 0) :
    OrchestratorServicer.ReceiveIMUDataChecked st device_id rec o
      = (⟨device_id, "rejected_not_ready"⟩, st) ∧
    OrchestratorServicer.ReceiveAudioDataChecked st session_id arec oa
      = (⟨session_id, "rejected_not_ready"⟩, st) ∧
    OrchestratorServicer.ReceiveIMUData st device_id rec o
      = (⟨device_id, "rejected_not_ready"⟩, st) ∧
    OrchestratorServicer.ReceiveAudioData st session_id arec oa
      = (⟨session_id, "rejected_not_ready"⟩, st) := by
  refine ⟨?_, ?_, ?_, ?_⟩ <;>
    · simp only [OrchestratorServicer.ReceiveIMUDataChecked,
        OrchestratorServicer.ReceiveAudioDataChecked,
        OrchestratorServicer.ReceiveIMUData,
        OrchestratorServicer.ReceiveAudioData]
      rw [if_pos h]

/-- Witness for C1 at a concrete not-ready state. -/
theorem admission_gate_rejects_not_ready_witness :
    (initialState.system_status.orchestrator_ready = false ∨ initialState.current_users = 0) ∧
    OrchestratorServicer.ReceiveIMUDataChecked initialState "dev" imuRecord .raises
      = (⟨"dev", "rejected_not_ready"⟩, initialState) :=
  ⟨Or.inl rfl,
   (admission_gate_rejects_not_ready initialState "dev" "sess" imuRecord audioRecord
     .raises .raises (Or.inl rfl)).1⟩

/-- C2 counterexample: at a concrete wired collecting state with an empty
buffer, an audio record (the k = 0 instance of the claim) does not make add
return false with one inference invocation - add raises (the AttributeError
escapes the finally block) and no inference is ever invoked. -/
theorem prediction_trigger_on_audio_counterexample :
    cycleStateC.prediction_buffer.is_collecting = true ∧
    cycleStateC.prediction_buffer.data = [] ∧
    audioRecord.sensor_type = "audio" ∧
    (PredictionBuffer.add_real cycleStateC audioRecord (.success okResult) true).1
      = .error PyError.attributeError ∧
    inferenceCalls ((PredictionBuffer.add_real cycleStateC audioRecord
      (.success okResult) true).2).events = [] :=
  ⟨rfl, rfl, rfl, rfl, rfl⟩

/-- C2 (amended): with the orchestrator back reference unset - the only
configuration the program can construct, since the wiring line is unreachable
(C10) - PredictionBuffer.add behaves exactly as claimed: a no-op returning
false when not collecting (that part holds for either wiring); while
collecting, each of `k` non-audio records is appended with add returning true
and no inference happening, and a following audio record triggers exactly one
synchronous inference invocation whose input is all `k+1` records in
insertion order, with add returning false.  With the back reference wired,
the audio add instead raises AttributeError out of the finally block and
inference is never invoked. -/
theorem prediction_trigger_on_audio_real (st stNo : SState) (rs : List SensorRecord)
    (a recNo : SensorRecord) (o oNo : InferOutcome) (wNo : Bool)
    (hcol : st.prediction_buffer.is_collecting = true)
    (hempty : st.prediction_buffer.data = [])
    (hrs : ∀ r ∈ rs, r.sensor_type ≠ "audio")
    (ha : a.sensor_type = "audio")
    (hNo : stNo.prediction_buffer.is_collecting = false) :
    PredictionBuffer.add_real stNo recNo oNo wNo = (.ok false, stNo) ∧
    (∀ (w : Bool) (i : Nat) (hi : i < rs.length),
      (PredictionBuffer.add_real (PredictionBuffer.addAll_real st (rs.take i) o w)
        (rs.get ⟨i, hi⟩) o w).1 = .ok true) ∧
    (∀ w : Bool, inferenceCalls (PredictionBuffer.addAll_real st rs o w).events
      = inferenceCalls st.events) ∧
    (PredictionBuffer.add_real (PredictionBuffer.addAll_real st rs o false) a o false).1
      = .ok false ∧
    inferenceCalls ((PredictionBuffer.add_real (PredictionBuffer.addAll_real st rs o false)
        a o false).2).events
      = inferenceCalls st.events ++ [(st.prediction_buffer.n_users, rs ++ [a])] ∧
    (PredictionBuffer.add_real (PredictionBuffer.addAll_real st rs o true) a o true).1
      = .error PyError.attributeError ∧
    inferenceCalls ((PredictionBuffer.add_real (PredictionBuffer.addAll_real st rs o true)
        a o true).2).events = inferenceCalls st.events := by
  have hA := fun w => PredictionBuffer.addAll_real_nonaudio rs st o w hcol hrs
  have hAcol : ∀ w, (PredictionBuffer.addAll_real st rs o w).prediction_buffer.is_collecting
      = true := by
    intro w; rw [hA w]; exact hcol
  have hAdata : ∀ w, (PredictionBuffer.addAll_real st rs o w).prediction_buffer.data = rs := by
    intro w; rw [hA w]; simp [hempty]
  have hAev : ∀ w, (PredictionBuffer.addAll_real st rs o w).events = st.events := by
    intro w; rw [hA w]
  have hAn : ∀ w, (PredictionBuffer.addAll_real st rs o w).prediction_buffer.n_users
      = st.prediction_buffer.n_users := by
    intro w; rw [hA w]
  refine ⟨by simp [PredictionBuffer.add_real, hNo], ?_, ?_, ?_, ?_, ?_, ?_⟩
  · intro w i hi
    have hAi := PredictionBuffer.addAll_real_nonaudio (rs.take i) st o w hcol
      (fun r hr => hrs r (List.mem_of_mem_take hr))
    rw [hAi]
    have hna : rs[i].sensor_type ≠ "audio" := hrs _ (List.getElem_mem hi)
    simp [PredictionBuffer.add_real, hcol, hna]
  · intro w; rw [hAev w]
  · rw [PredictionBuffer.add_real_audio_unwired _ a o (hAcol false) ha]
  · rw [PredictionBuffer.add_real_audio_unwired _ a o (hAcol false) ha]
    dsimp only
    rw [PredictionBuffer.run_real_unwired_calls _ o (by simp [hAdata false])]
    simp [hAev false, hAn false, hAdata false]
  · rw [PredictionBuffer.add_real_audio_wired _ a o (hAcol true) ha]
  · rw [PredictionBuffer.add_real_audio_wired _ a o (hAcol true) ha]
    simp [hAev true, inferenceCalls]

/-- Witness for the amended C2: two imu records then one audio record through
an unwired collecting buffer - one inference invocation on all three. -/
theorem prediction_trigger_on_audio_real_witness :
    inferenceCalls ((PredictionBuffer.add_real
        (PredictionBuffer.addAll_real cycleStateC [imuRecord, imuRecord] .raises false)
        audioRecord .raises false).2).events
      = [(2, [imuRecord, imuRecord, audioRecord])] :=
  (prediction_trigger_on_audio_real cycleStateC initialState [imuRecord, imuRecord]
    audioRecord imuRecord .raises .raises false rfl rfl (by decide) rfl rfl).2.2.2.2.1

/-- C3: the claim's teardown - orchestrator_ready restored before a re-arm or
park - happens in no real execution.  Wired (the configuration the servicer
code intends to set up), the audio-triggered step leaves orchestrator_ready
FALSE: line 64 clears it, line 65 raises, and in the finally block line 94
raises again before the line-98 reset, so the AttributeError escapes, the
prediction status is untouched and no re-arm or park occurs - the
orchestrator is stuck not-ready.  Unwired, the guarded block is skipped and
the system status is never touched at all.  Only the buffer clearing and the
collecting stop (lines 89-90) always happen. -/
theorem prediction_cycle_stuck_not_ready (st : SState) (a : SensorRecord) (o : InferOutcome)
    (hcol : st.prediction_buffer.is_collecting = true)
    (ha : a.sensor_type = "audio") :
    (PredictionBuffer.add_real st a o true).1 = .error PyError.attributeError ∧
    (PredictionBuffer.add_real st a o true).2.system_status.orchestrator_ready = false ∧
    (PredictionBuffer.add_real st a o true).2.prediction_buffer.data = [] ∧
    (PredictionBuffer.add_real st a o true).2.prediction_buffer.is_collecting = false ∧
    (PredictionBuffer.add_real st a o true).2.system_status.prediction_status
      = st.system_status.prediction_status ∧
    (PredictionBuffer.add_real st a o false).2.system_status = st.system_status := by
  have hw := PredictionBuffer.add_real_audio_wired st a o hcol ha
  have hu := PredictionBuffer.add_real_audio_unwired st a o hcol ha
  rw [hw, hu]
  exact ⟨rfl, rfl, rfl, rfl, rfl,
    (PredictionBuffer.run_real_unwired_state _ o).1⟩

/-- Witness for C3 at a concrete wired collecting state. -/
theorem prediction_cycle_stuck_not_ready_witness :
    (PredictionBuffer.add_real cycleStateA audioRecord .raises true).1
      = .error PyError.attributeError ∧
    (PredictionBuffer.add_real cycleStateA audioRecord .raises true).2.system_status.orchestrator_ready
      = false :=
  ⟨(prediction_cycle_stuck_not_ready cycleStateA audioRecord .raises rfl rfl).1,
   (prediction_cycle_stuck_not_ready cycleStateA audioRecord .raises rfl rfl).2.1⟩

/-- C8 counterexample: at a concrete unwired collecting state with prediction
mode flagged active and users present, a raising inference is indeed
contained (add returns false) - but the cycle does NOT restart: collection
stays stopped, contradicting the claim's restart conclusion.  (Wired, the
claim fails differently: add raises, so the caller does see a fault.) -/
theorem inference_failure_no_restart_counterexample :
    cycleStateA.system_status.prediction_status.is_active = true ∧
    0 < cycleStateA.current_users ∧
    (PredictionBuffer.add_real cycleStateA audioRecord .raises false).1 = .ok false ∧
    (PredictionBuffer.add_real cycleStateA audioRecord .raises false).2.prediction_buffer.is_collecting
      = false ∧
    (PredictionBuffer.add_real cycleStateA audioRecord .raises true).1
      = .error PyError.attributeError :=
  ⟨rfl, by decide, rfl, rfl, rfl⟩

/-- C8 (amended): unwired - the only constructible configuration (C10) -
exceptions from the inference collaborator are caught inside
_predict_synchronous and the caller of add sees the normal false return; no
result is published and the whole system status, current_prediction
included, is untouched; teardown clears the buffer and stops collecting, but
no automatic restart ever happens (the re-arm block needs the back
reference).  Wired, the caller of add does see a fault: an AttributeError
escapes the finally block for every inference outcome. -/
theorem inference_failure_contained_unwired (st : SState) (a : SensorRecord)
    (hcol : st.prediction_buffer.is_collecting = true)
    (ha : a.sensor_type = "audio") :
    (PredictionBuffer.add_real st a .raises false).1 = .ok false ∧
    publishedResults ((PredictionBuffer.add_real st a .raises false).2).events
      = publishedResults st.events ∧
    (PredictionBuffer.add_real st a .raises false).2.system_status = st.system_status ∧
    (PredictionBuffer.add_real st a .raises false).2.prediction_buffer.data = [] ∧
    (PredictionBuffer.add_real st a .raises false).2.prediction_buffer.is_collecting = false ∧
    (∀ o : InferOutcome,
      (PredictionBuffer.add_real st a o true).1 = .error PyError.attributeError) := by
  have hu := PredictionBuffer.add_real_audio_unwired st a .raises hcol ha
  rw [hu]
  refine ⟨rfl, ?_, ?_, ?_, ?_, ?_⟩
  · exact PredictionBuffer.run_real_unwired_published_raises _
  · exact (PredictionBuffer.run_real_unwired_state _ .raises).1
  · exact (PredictionBuffer.run_real_unwired_state _ .raises).2.1
  · exact (PredictionBuffer.run_real_unwired_state _ .raises).2.2
  · intro o
    rw [PredictionBuffer.add_real_audio_wired st a o hcol ha]

/-- Witness for the amended C8 at a concrete unwired collecting state. -/
theorem inference_failure_contained_unwired_witness :
    (PredictionBuffer.add_real cycleStateA audioRecord .raises false).1 = .ok false ∧
    (PredictionBuffer.add_real cycleStateA audioRecord .raises false).2.system_status
      = cycleStateA.system_status :=
  ⟨(inference_failure_contained_unwired cycleStateA audioRecord rfl rfl).1,
   (inference_failure_contained_unwired cycleStateA audioRecord rfl rfl).2.2.1⟩

/-- C4: the presence-edge logic of the claim is dead code.  Every
ReceiveRFIDData call dereferences the undeclared
`system_status.prediction_status` at the line-134 guard, raises
AttributeError and answers error; the prediction buffer and the whole
prediction status are untouched, so no prediction cycle ever begins or
aborts on a presence edge (and, the control surface failing the same way, no
state with `prediction_status.is_active` even exists). -/
theorem rfid_presence_edges_dead (st : SState) (device_id : String) (tags : Nat) :
    (OrchestratorServicer.ReceiveRFIDDataChecked st device_id tags).1.status = "error" ∧
    (OrchestratorServicer.ReceiveRFIDDataChecked st device_id tags).2.prediction_buffer
      = st.prediction_buffer ∧
    (OrchestratorServicer.ReceiveRFIDDataChecked st device_id tags).2.system_status.prediction_status
      = st.system_status.prediction_status := by
  simp [OrchestratorServicer.ReceiveRFIDDataChecked, OrchestratorServicer.rfid_ingest,
    pydantic_hasattr, systemStatusFields]

/-- C7 counterexample: at a concrete admitted state with no recording session
active and prediction mode inactive, the handler does not answer success -
the prediction_status dereference raises and the except clause answers
error (the record indeed reaches neither buffer). -/
theorem silent_drop_status_counterexample :
    noSessionState.system_status.orchestrator_ready = true ∧
    noSessionState.current_users ≠ 0 ∧
    noSessionState.system_status.current_activity = none ∧
    (OrchestratorServicer.ReceiveIMUDataChecked noSessionState "dev" imuRecord .raises).1.status
      = "error" ∧
    (OrchestratorServicer.ReceiveIMUDataChecked noSessionState "dev" imuRecord .raises).1.status
      ≠ "success" ∧
    (OrchestratorServicer.ReceiveIMUDataChecked noSessionState "dev" imuRecord .raises).2.buffer.data
      = noSessionState.buffer.data := by
  decide

/-- C7 (amended): for every admitted ReceiveIMUData or ReceiveAudioData call
in the claim's scenario (no recording session, prediction mode inactive; the
conclusions in fact need neither restriction), the record reaches neither
buffer and is dropped, but the handler answers error rather than success:
the prediction_status dereference raises right after the counters advance
(C9), so the routing below it never runs. -/
theorem admitted_record_not_routed (st : SState) (device_id session_id : String)
    (rec arec : SensorRecord) (o oa : InferOutcome)
    (hready : st.system_status.orchestrator_ready = true)
    (husers : st.current_users ≠ 0)
    (_hact : st.system_status.current_activity = none)
    (_hpred : st.system_status.prediction_status.is_active = false) :
    (OrchestratorServicer.ReceiveIMUDataChecked st device_id rec o).2.buffer = st.buffer ∧
    (OrchestratorServicer.ReceiveIMUDataChecked st device_id rec o).2.prediction_buffer
      = st.prediction_buffer ∧
    (OrchestratorServicer.ReceiveIMUDataChecked st device_id rec o).1.status = "error" ∧
    (OrchestratorServicer.ReceiveAudioDataChecked st session_id arec oa).2.buffer = st.buffer ∧
    (OrchestratorServicer.ReceiveAudioDataChecked st session_id arec oa).2.prediction_buffer
      = st.prediction_buffer ∧
    (OrchestratorServicer.ReceiveAudioDataChecked st session_id arec oa).1.status = "error" := by
  simp [OrchestratorServicer.ReceiveIMUDataChecked,
    OrchestratorServicer.ReceiveAudioDataChecked,
    OrchestratorServicer.imu_ingest, OrchestratorServicer.audio_ingest,
    pydantic_hasattr, systemStatusFields, hready, husers]

/-- Witness for the amended C7 at the no-session state. -/
theorem admitted_record_not_routed_witness :
    (OrchestratorServicer.ReceiveIMUDataChecked noSessionState "dev" imuRecord .raises).2.buffer
      = noSessionState.buffer ∧
    (OrchestratorServicer.ReceiveIMUDataChecked noSessionState "dev" imuRecord .raises).1.status
      = "error" :=
  ⟨(admitted_record_not_routed noSessionState "dev" "sess" imuRecord audioRecord
      .raises .raises rfl (by decide) rfl rfl).1,
   (admitted_record_not_routed noSessionState "dev" "sess" imuRecord audioRecord
      .raises .raises rfl (by decide) rfl rfl).2.2.1⟩

/-- C9: the pydantic `SystemStatus` model of models/system_status.py declares
no `prediction_status` field, so the dereference `system_status.prediction_status`
raises `AttributeError`; every admitted ReceiveIMUData/ReceiveAudioData call
and every ReceiveRFIDData call therefore ends in the handler's except clause
with status `error` - after the counters (`total_batches_processed`, the
per-sensor stats, and for rfid `current_users`) have already been mutated, so
the error response is not atomic with respect to state. -/
theorem missing_prediction_status_attribute_errors (st st2 : SState)
    (device_id session_id dev2 : String) (rec arec : SensorRecord)
    (o oa : InferOutcome) (tags : Nat)
    (hready : st.system_status.orchestrator_ready = true)
    (husers : st.current_users ≠ 0) :
    pydantic_hasattr systemStatusFields "prediction_status" = false ∧
    (OrchestratorServicer.ReceiveIMUDataChecked st device_id rec o).1.status = "error" ∧
    (OrchestratorServicer.ReceiveIMUDataChecked st device_id rec o).2.system_status.total_batches_processed
      = st.system_status.total_batches_processed + 1 ∧
    (OrchestratorServicer.ReceiveIMUDataChecked st device_id rec o).2.sensor_stats.imu_batches_received
      = st.sensor_stats.imu_batches_received + 1 ∧
    (OrchestratorServicer.ReceiveAudioDataChecked st session_id arec oa).1.status = "error" ∧
    (OrchestratorServicer.ReceiveAudioDataChecked st session_id arec oa).2.sensor_stats.audio_features_processed
      = st.sensor_stats.audio_features_processed + 1 ∧
    (OrchestratorServicer.ReceiveRFIDDataChecked st2 dev2 tags).1.status = "error" ∧
    (OrchestratorServicer.ReceiveRFIDDataChecked st2 dev2 tags).2.system_status.total_batches_processed
      = st2.system_status.total_batches_processed + 1 ∧
    (OrchestratorServicer.ReceiveRFIDDataChecked st2 dev2 tags).2.current_users = tags := by
  refine ⟨rfl, ?_⟩
  simp [OrchestratorServicer.ReceiveIMUDataChecked,
    OrchestratorServicer.ReceiveAudioDataChecked,
    OrchestratorServicer.ReceiveRFIDDataChecked,
    OrchestratorServicer.imu_ingest, OrchestratorServicer.audio_ingest,
    OrchestratorServicer.rfid_ingest, pydantic_hasattr, systemStatusFields,
    hready, husers]

/-- Witness for C9 at concrete admitted states. -/
theorem missing_prediction_status_attribute_errors_witness :
    (OrchestratorServicer.ReceiveIMUDataChecked noSessionState "dev" imuRecord .raises).1.status
      = "error" ∧
    (OrchestratorServicer.ReceiveRFIDDataChecked initialState "dev" 2).1.status = "error" :=
  ⟨(missing_prediction_status_attribute_errors noSessionState initialState "dev" "sess" "dev"
      imuRecord audioRecord .raises .raises 2 rfl (by decide)).2.1,
   (missing_prediction_status_attribute_errors noSessionState initialState "dev" "sess" "dev"
      imuRecord audioRecord .raises .raises 2 rfl (by decide)).2.2.2.2.2.2.1⟩

/-- C10: for every WebSocketManager argument, constructing the servicer raises
`TypeError`: `OrchestratorServicer.__init__` calls
`PredictionBuffer(size=5000, wsocket_manager=...)` while
`PredictionBuffer.__init__` accepts only `wsocket_manager`, so the keyword
`size` fails to bind and no servicer instance can be created. -/
theorem servicer_construction_type_error (W : Type) (w : W) :
    PyInit.orchestratorServicerInit w
      = Except.error "TypeError: unexpected keyword argument" := rfl

/-- C5: for the RecordingBuffer with configured threshold `t`, after `N`
sequential single-record additions (each through the dispatcher's add-then-
check step, the snapshot-and-clear being one atomic step of the model) exactly
one offload is submitted per threshold crossing (`N / t` in total), every
submitted snapshot holds exactly `t` records and the snapshots concatenated
with the remaining buffer reproduce the insertion sequence in order, the
remaining visible size is `N % t` - a `Nat`, hence never negative - and, when
`t ≤ N < 2·t`, there is exactly one offload and the visible size is `N - t`. -/
theorem recording_buffer_threshold_offloads (t N : Nat) (rs : List SensorRecord)
    (ht : 0 < t) (hN : rs.length = N) :
    (Buffer.run { size := t } rs).2.length = N / t ∧
    (Buffer.run { size := t } rs).1.data.length = N % t ∧
    ((Buffer.run { size := t } rs).2).flatten ++ (Buffer.run { size := t } rs).1.data = rs ∧
    (∀ s ∈ (Buffer.run { size := t } rs).2, s.length = t) ∧
    (Buffer.run { size := t } rs).1.upload_stats.pendingUploads
      = (Buffer.run { size := t } rs).2.length ∧
    (t ≤ N → N < 2 * t →
      (Buffer.run { size := t } rs).2.length = 1 ∧
      (Buffer.run { size := t } rs).1.data.length = N - t) := by
  have h := Buffer.run_spec rs { size := t } ht (by simp [ht])
  obtain ⟨h1, h2, h3, h4, h5, h6⟩ := h
  simp only [hN] at h2 h3
  have hdiv : t ≤ N → N < 2 * t → N / t = 1 ∧ N % t = N - t := by
    intro hle hlt
    obtain ⟨m, hm⟩ : ∃ m, N = t + m := ⟨N - t, by omega⟩
    have hmlt : m < t := by omega
    constructor
    · rw [hm, Nat.add_comm, Nat.add_div_right _ ht, Nat.div_eq_of_lt hmlt]
    · rw [hm, Nat.add_mod_left, Nat.mod_eq_of_lt hmlt]; omega
  refine ⟨by simpa using h2, by simpa using h3, by simpa using h4,
    by simpa using h5, by simpa using h6, ?_⟩
  intro hle hlt
  obtain ⟨hd1, hd2⟩ := hdiv hle hlt
  exact ⟨by simpa [hd1] using h2, by simpa [hd2] using h3⟩

/-- Witness for C5: threshold 2, three sequential additions - one crossing,
remaining size 1 = 3 - 2. -/
theorem recording_buffer_threshold_offloads_witness :
    (Buffer.run { size := 2 } [imuRecord, imuRecord, imuRecord]).2.length = 1 ∧
    (Buffer.run { size := 2 } [imuRecord, imuRecord, imuRecord]).1.data.length = 1 := by
  have h := (recording_buffer_threshold_offloads 2 3 [imuRecord, imuRecord, imuRecord]
    (by decide) rfl).2.2.2.2.2 (by decide) (by decide)
  exact ⟨h.1, h.2⟩

/-- C6: a failed offload increments `totalErrors` by exactly one, leaves
`totalUploads` unchanged, decrements `pendingUploads`, and writes exactly one
local backup file holding all snapshotted items with the label, the user
count, the error text and a timestamp - the failed data is never silently
dropped. -/
theorem failed_offload_backup_and_stats (data_snapshot : List SensorRecord)
    (label : String) (n_users upload_id now : Nat) (e : String) (stats : UploadStats) :
    (Buffer.upload_data_to_s3 data_snapshot label n_users upload_id now (.failure e)).2
      = [{ label := label, n_users := n_users, data := data_snapshot,
           error := e, timestamp := now }] ∧
    (Buffer.upload_data_to_s3 data_snapshot label n_users upload_id now (.failure e)).1.success
      = false ∧
    (Buffer.upload_completed_callback stats
        (Buffer.upload_data_to_s3 data_snapshot label n_users upload_id now (.failure e)).1).totalErrors
      = stats.totalErrors + 1 ∧
    (Buffer.upload_completed_callback stats
        (Buffer.upload_data_to_s3 data_snapshot label n_users upload_id now (.failure e)).1).totalUploads
      = stats.totalUploads ∧
    (Buffer.upload_completed_callback stats
        (Buffer.upload_data_to_s3 data_snapshot label n_users upload_id now (.failure e)).1).pendingUploads
      = stats.pendingUploads - 1 := by
  simp [Buffer.upload_data_to_s3, Buffer.upload_completed_callback]

/-- Witness for C6 at a concrete failed offload. -/
theorem failed_offload_backup_and_stats_witness :
    (Buffer.upload_data_to_s3 [imuRecord] "Cooking" 2 7 11 (.failure "io error")).2
      = [{ label := "Cooking", n_users := 2, data := [imuRecord],
           error := "io error", timestamp := 11 }] :=
  (failed_offload_backup_and_stats [imuRecord] "Cooking" 2 7 11 "io error" {}).1

/-- Witness for C10 at a concrete (trivial) WebSocketManager stand-in. -/
theorem servicer_construction_type_error_witness :
    PyInit.orchestratorServicerInit ()
      = Except.error "TypeError: unexpected keyword argument" :=
  servicer_construction_type_error Unit ()

end FpOrchestrator
